import Mathlib

/-!
Shallow embedding of the LLM request-orchestration service
(`LLMService` in the repository) and proofs about its behavior.

The JavaScript source is translated function-by-function:
machine-level JS value semantics (truthiness, `typeof` checks, the
`TypeError` thrown when `.trim()` is applied to a non-string) are made
explicit; fallible code returns `Except`.
-/

namespace Assistant

/-- A JavaScript value as it can appear as the `content` field of a
history turn or as raw user input: a string, a number, `null`,
`undefined`, or a boolean. -/
inductive JSVal where
  | vstr (s : String)
  | vnum (n : Int)
  | vnull
  | vundef
  | vbool (b : Bool)
deriving DecidableEq, Repr

/-- JavaScript truthiness of a `JSVal`. -/
def jsTruthy : JSVal → Bool
  | .vstr s => !(s == "")
  | .vnum n => !(n == 0)
  | .vnull => false
  | .vundef => false
  | .vbool b => b

/-- The string carried by a `JSVal`, or `""` when it is not a string. -/
def contentString : JSVal → String
  | .vstr s => s
  | _ => ""

/-- Whether a `JSVal` is a string (`typeof v === "string"`). -/
def isStringVal : JSVal → Bool
  | .vstr _ => true
  | _ => false

/-- Character-list trimming: drop whitespace from the front, then from
the back. -/
def trimChars (l : List Char) : List Char :=
  ((l.dropWhile Char.isWhitespace).reverse.dropWhile Char.isWhitespace).reverse

/-- JS `s.trim()`, embedded over the character list of the string. -/
def jsTrim (s : String) : String :=
  ⟨trimChars s.data⟩

/-- JS `s.toLowerCase()`, embedded as a character-wise map. -/
def jsToLower (s : String) : String :=
  ⟨s.data.map Char.toLower⟩

/-- JS `s.toUpperCase()`, embedded as a character-wise map. -/
def jsToUpper (s : String) : String :=
  ⟨s.data.map Char.toUpper⟩

/-- `text && typeof text === "string" ? text.trim() : ""` applied to a raw
input value (the cleaning step of `buildIntelligentTranscriptionRequest`). -/
def cleanTextOf (v : JSVal) : String :=
  if jsTruthy v && isStringVal v then jsTrim (contentString v) else ""

/-- Whether `pre` is a prefix of `l` (used to embed JS `includes`). -/
def hasPrefixList [DecidableEq α] : List α → List α → Bool
  | _, [] => true
  | [], _ :: _ => false
  | a :: as, b :: bs => a == b && hasPrefixList as bs

/-- Whether `sub` occurs as a contiguous run inside `l`. -/
def hasSubList [DecidableEq α] (sub : List α) : List α → Bool
  | [] => hasPrefixList [] sub
  | a :: as => hasPrefixList (a :: as) sub || hasSubList sub as

/-- JS `s.includes(sub)`: substring containment on strings. -/
def strIncludes (s sub : String) : Bool :=
  hasSubList sub.data s.data

/-- JS `arr.slice(-n)`: the last `n` elements of a list (all of them when
the list is shorter). -/
def takeLast (n : Nat) (l : List α) : List α :=
  l.drop (l.length - n)

/-- Inline binary payload of a request part (`inlineData` in the wire
format): a media type and base64 data. -/
structure InlineData where
  mimeType : String
  data : String
deriving DecidableEq, Repr

/-- One part of a request turn: optional text and optional inline data,
mirroring the `{ text }` / `{ inlineData }` part objects built by the
source. -/
structure Part where
  text : Option String := none
  inlineData : Option InlineData := none
deriving DecidableEq, Repr

/-- One turn of the `contents` array: a role and its parts. -/
structure ContentTurn where
  role : String
  parts : List Part
deriving DecidableEq, Repr

/-- Generation parameters (`generationConfig`). Temperature and topP are
rationals, the others naturals. -/
structure GenConfig where
  temperature : ℚ
  maxOutputTokens : ℕ
  topK : ℕ
  topP : ℚ
deriving DecidableEq, Repr

/-- A complete request to the generative endpoint: `contents`, an optional
`systemInstruction` (its parts), and the `generationConfig`. -/
structure GeminiRequest where
  contents : List ContentTurn
  systemInstruction : Option (List Part) := none
  generationConfig : GenConfig
deriving DecidableEq, Repr

/-- The skill context returned by the external session manager:
a resolved skill prompt (the empty string models a falsy/absent prompt)
and whether a programming-language directive is required. -/
structure SkillContext where
  skillPrompt : String
  requiresProgrammingLanguage : Bool
deriving DecidableEq, Repr

/-- One turn of the external conversation history: a role and a raw
content value (which in JS may be any value, not only a string). -/
structure HistTurn where
  role : String
  content : JSVal
deriving DecidableEq, Repr

/-- Errors raised by the request builders. -/
inductive BuildError where
  | invalidInput (msg : String)
  | typeError (msg : String)
deriving DecidableEq, Repr

/-- `generationConfig` used by the plain-text and transcription builders. -/
def textGenConfig : GenConfig :=
  { temperature := 7/10, maxOutputTokens := 2048, topK := 40, topP := 95/100 }

/-- `generationConfig` used by the vision builder. -/
def visionGenConfig : GenConfig :=
  { temperature := 7/10, maxOutputTokens := 4096, topK := 40, topP := 95/100 }

/-- `formatUserMessage(text, activeSkill)`: wraps the raw text in the
fixed analysis-request preamble naming the skill. -/
def formatUserMessage (text activeSkill : String) : String :=
  "Context: " ++ jsToUpper activeSkill ++ " analysis request\n\nText to analyze:\n" ++ text

/-- The history filter used by `buildGeminiRequestWithHistory` and
`buildIntelligentTranscriptionRequestWithHistory`: keeps turns whose role
is not "system" and whose content is a truthy string with non-empty
trimmed text. -/
def histEligible (t : HistTurn) : Bool :=
  !(t.role == "system") && jsTruthy t.content && isStringVal t.content &&
    !(jsTrim (contentString t.content) == "")

/-- The role-and-content mapping applied to an eligible history turn:
"model" stays "model", every other role becomes "user"; the content is
trimmed into a single text part. -/
def mapHistTurn (t : HistTurn) : ContentTurn :=
  { role := if t.role == "model" then "model" else "user",
    parts := [{ text := some (jsTrim (contentString t.content)) }] }

/-- `buildGeminiRequestWithHistory`: filters and maps the history, then
appends the formatted current user input; raises an error when the
formatted message is empty (its JS check, kept verbatim even though the
preamble makes the formatted message non-empty). -/
def buildGeminiRequestWithHistory (text activeSkill : String)
    (conversationHistory : List HistTurn) (skillContext : SkillContext) :
    Except BuildError GeminiRequest :=
  let conversationContents := (conversationHistory.filter histEligible).map mapHistTurn
  let formattedMessage := formatUserMessage text activeSkill
  if formattedMessage == "" || jsTrim formattedMessage == "" then
    .error (.invalidInput "Failed to format user message or message is empty")
  else
    .ok { contents := conversationContents ++
            [{ role := "user", parts := [{ text := some formattedMessage }] }],
          systemInstruction :=
            if skillContext.skillPrompt == "" then none
            else some [{ text := some skillContext.skillPrompt }],
          generationConfig := textGenConfig }

/-- Modelled from the spec: `getConversationHistory(limit)` of the external
session manager (not part of the provided sources) returns the bounded
rolling window of the most recent `limit` turns of the conversation
history. -/
def getConversationHistory (limit : Nat) (src : List HistTurn) : List HistTurn :=
  takeLast limit src

/-- `buildGeminiRequest` on the conversation-history path: retrieves the
most recent 15 turns and the skill context and delegates to
`buildGeminiRequestWithHistory`. -/
def buildGeminiRequest (text activeSkill : String) (src : List HistTurn)
    (skillContext : SkillContext) : Except BuildError GeminiRequest :=
  buildGeminiRequestWithHistory text activeSkill (getConversationHistory 15 src) skillContext

/-- JS truthiness of an optional string argument such as
`programmingLanguage` (absent or empty string is falsy). -/
def optStrTruthy : Option String → Bool
  | none => false
  | some s => !(s == "")

/-- `getIntelligentTranscriptionPrompt(activeSkill, programmingLanguage)`:
the intelligent-filtering instruction concatenated from the fixed template
with the skill (upper-cased where the source upper-cases it) and the
optional coding-context line. -/
def getIntelligentTranscriptionPrompt (activeSkill : String)
    (programmingLanguage : Option String) : String :=
  let base := "# Interview Assistant - " ++ jsToUpper activeSkill ++ " Mode\n\nYou are an expert interview assistant helping someone in a " ++ jsToUpper activeSkill ++ " interview. \nYour job is to provide helpful, comprehensive answers to help them succeed."
  let withLang :=
    if optStrTruthy programmingLanguage then
      base ++ "\n\nCODING CONTEXT: Use " ++ (jsToUpper (programmingLanguage.getD "")) ++ " for all code examples."
    else base
  withLang ++ "\n\n## Response Rules:\n\n### When the user mentions a " ++ activeSkill ++ " topic or concept (even without a question):\n- ASSUME they want to learn about it or need help explaining it in an interview\n- Provide a clear, comprehensive explanation\n- Include key points, examples, and common interview follow-ups\n- For technical topics: include time/space complexity, use cases, and code examples when relevant\n\n### Examples of topics to explain (provide full answers):\n- \"linked list\" → Explain what it is, types, operations, complexity, use cases\n- \"binary search\" → Explain the algorithm, when to use it, implementation\n- \"system design\" → Explain the concept and approach\n- Any " ++ activeSkill ++ "-related term or concept\n\n### Only respond briefly for:\n- Pure greetings with no topic: \"Hello\", \"Hi there\"\n- Completely unrelated topics: \"What\u0027s the weather?\"\n- For these, say: \"I\u0027m ready to help with " ++ activeSkill ++ ". What would you like to know?\"\n\n## Response Format:\n- Be comprehensive but concise\n- Use bullet points for clarity\n- Include practical examples\n- For coding topics: mention time/space complexity\n- Anticipate follow-up questions\n\nIMPORTANT: When in doubt, provide a helpful answer. Better to over-explain than under-explain in an interview setting."

/-- The map applied to transcription history turns after filtering:
returns `none` for (unreachable) empty trimmed content, mirroring the
`return null` branch, else the role-mapped turn. -/
def mapTranscHistTurn (t : HistTurn) : Option ContentTurn :=
  let content := jsTrim (contentString t.content)
  if content == "" then none
  else some { role := if t.role == "model" then "model" else "user",
              parts := [{ text := some content }] }

/-- `buildIntelligentTranscriptionRequestWithHistory`: combines the skill
prompt with the intelligent-filtering instruction, filters the history,
keeps the most recent 8 filtered turns, re-validates the current text and
appends it as the final user turn. -/
def buildIntelligentTranscriptionRequestWithHistory (text : JSVal)
    (activeSkill : String) (conversationHistory : List HistTurn)
    (skillContext : SkillContext) (programmingLanguage : Option String) :
    Except BuildError GeminiRequest :=
  let intelligentPrompt := getIntelligentTranscriptionPrompt activeSkill programmingLanguage
  let combinedInstruction :=
    if skillContext.skillPrompt == "" then intelligentPrompt
    else skillContext.skillPrompt ++ "\n\n" ++ intelligentPrompt
  let conversationContents :=
    (takeLast 8 (conversationHistory.filter histEligible)).filterMap mapTranscHistTurn
  let cleanText := cleanTextOf text
  if cleanText == "" then
    .error (.invalidInput "Empty or invalid transcription text provided")
  else
    let contents := conversationContents ++
      [{ role := "user", parts := [{ text := some cleanText }] }]
    if contents.length == 0 then
      .error (.invalidInput "No valid content to send to Gemini API")
    else
      .ok { contents := contents,
            systemInstruction := some [{ text := some combinedInstruction }],
            generationConfig := textGenConfig }

/-- `buildIntelligentTranscriptionRequest` on the conversation-history
path: validates the raw input first, then retrieves the most recent 10
turns and the skill context and delegates. -/
def buildIntelligentTranscriptionRequest (text : JSVal) (activeSkill : String)
    (src : List HistTurn) (skillContext : SkillContext)
    (programmingLanguage : Option String) : Except BuildError GeminiRequest :=
  let cleanText := cleanTextOf text
  if cleanText == "" then
    .error (.invalidInput
      "Empty or invalid transcription text provided to buildIntelligentTranscriptionRequest")
  else
    buildIntelligentTranscriptionRequestWithHistory (.vstr cleanText) activeSkill
      (getConversationHistory 10 src) skillContext programmingLanguage

/-- `getVisionSystemPrompt(activeSkill, programmingLanguage)`: the vision
system instruction synthesized from the fixed template. -/
def getVisionSystemPrompt (activeSkill : String)
    (programmingLanguage : Option String) : String :=
  let base := "# Vision Analysis Assistant - " ++ jsToUpper activeSkill ++ " Mode\n\nYou are an expert assistant analyzing screenshots to help the user. Your job is to understand the visual content and provide helpful, actionable responses."
  let withLang :=
    if optStrTruthy programmingLanguage then
      base ++ "\n\nCODING CONTEXT: When providing code examples, use " ++ (jsToUpper (programmingLanguage.getD "")) ++ "."
    else base
  withLang ++ "\n\n## Your Capabilities:\n- Analyze screenshots of code, text, diagrams, UI designs, or any visual content\n- Extract and explain text, code, or data visible in the image\n- Identify problems, bugs, or issues shown in the image\n- Provide solutions, explanations, or improvements based on what you see\n- Answer questions about the visual content\n\n## Response Guidelines:\n1. First acknowledge what you see in the screenshot\n2. Address the user\u0027s specific question or request\n3. Provide detailed, actionable information\n4. If you see code, analyze it for correctness and suggest improvements\n5. If you see an error or problem, explain it and provide a solution\n6. Use formatting (bullet points, code blocks) for clarity\n\n## Skill Context: " ++ jsToUpper activeSkill ++ "\nFocus your analysis and responses in the context of " ++ activeSkill ++ ". For example:\n- If DSA: Focus on algorithms, data structures, complexity analysis\n- If Programming: Focus on code quality, bugs, optimization\n- If System Design: Focus on architecture, scalability, design patterns\n- If Behavioral: Focus on scenarios, communication, soft skills\n\nIMPORTANT: Be thorough but concise. Provide practical, immediately useful information."

/-- The image payload passed to the vision entry point: base64 data and a
media type (the empty string models an absent/falsy `mimeType`). -/
structure ImageData where
  base64 : String
  mimeType : String
deriving DecidableEq, Repr

/-- The vision history predicate
`event.role !== "system" && event.content && event.content.trim().length > 0`,
with the `TypeError` JS raises when `.trim()` is applied to a truthy
non-string surfaced as an error (this filter, unlike the plain-text and
transcription one, has no `typeof` guard). -/
def visionEligible (t : HistTurn) : Except BuildError Bool :=
  if t.role == "system" then .ok false
  else if !jsTruthy t.content then .ok false
  else
    match t.content with
    | .vstr s => .ok (!(jsTrim s == ""))
    | _ => .error (.typeError "event.content.trim is not a function")

/-- `Array.prototype.filter` with a predicate that may throw: the first
raised error aborts the whole filter. -/
def filterE (p : α → Except ε Bool) : List α → Except ε (List α)
  | [] => .ok []
  | x :: xs => do
    let b ← p x
    let rest ← filterE p xs
    pure (if b then x :: rest else rest)

/-- The parts of the final vision user turn: the inline image (pushed
only when truthy base64 data is present, with the media type defaulting
to PNG) followed by the prompt text (defaulting to the generic analysis
prompt when the prompt is empty). -/
def visionUserParts (imageData : Option ImageData) (userPrompt : String) : List Part :=
  (match imageData with
   | some img =>
     if img.base64 == "" then []
     else [{ inlineData := some
              { mimeType := if img.mimeType == "" then "image/png" else img.mimeType,
                data := img.base64 } }]
   | none => []) ++
  [{ text := some (if userPrompt == "" then
      "Please analyze this screenshot and provide helpful insights." else userPrompt) }]

/-- `buildVisionRequest`: synthesizes the vision system prompt, filters
the most recent 5 history turns with the guard-less vision filter, then
appends the final user turn carrying the optional inline image and the
prompt text (see `visionUserParts`). -/
def buildVisionRequest (imageData : Option ImageData)
    (userPrompt activeSkill : String) (src : List HistTurn)
    (programmingLanguage : Option String) : Except BuildError GeminiRequest := do
  let systemPrompt := getVisionSystemPrompt activeSkill programmingLanguage
  let conversationHistory := getConversationHistory 5 src
  let filtered ← filterE visionEligible conversationHistory
  let conversationContents := filtered.map mapHistTurn
  let userParts := visionUserParts imageData userPrompt
  pure { contents := conversationContents ++ [{ role := "user", parts := userParts }],
         systemInstruction := some [{ text := some systemPrompt }],
         generationConfig := visionGenConfig }

/-- The classification produced by `analyzeError`: a type tag, the
network flag, the suggested remediation, and the dedicated quota flag
(absent, i.e. `false`, except on the quota branch). -/
structure ErrorAnalysis where
  type : String
  isNetworkError : Bool
  suggestedAction : String
  isQuotaError : Bool := false
deriving DecidableEq, Repr

/-- The network-connectivity phrase list of `analyzeError` (first branch),
evaluated on the lowercased message. -/
def matchesNetworkPhrase (errorMessage : String) : Bool :=
  strIncludes errorMessage "fetch failed" ||
  strIncludes errorMessage "network error" ||
  strIncludes errorMessage "enotfound" ||
  strIncludes errorMessage "econnrefused" ||
  strIncludes errorMessage "timeout"

/-- The API-key phrase list of `analyzeError` (second branch). -/
def matchesAuthPhrase (errorMessage : String) : Bool :=
  strIncludes errorMessage "unauthorized" ||
  strIncludes errorMessage "invalid api key" ||
  strIncludes errorMessage "forbidden"

/-- The quota / rate-limit phrase list of `analyzeError` (third branch). -/
def matchesQuotaPhrase (errorMessage : String) : Bool :=
  strIncludes errorMessage "quota" ||
  strIncludes errorMessage "rate limit" ||
  strIncludes errorMessage "too many requests" ||
  strIncludes errorMessage "429" ||
  strIncludes errorMessage "resource_exhausted"

/-- The timeout phrase of `analyzeError` (fourth branch). -/
def matchesTimeoutPhrase (errorMessage : String) : Bool :=
  strIncludes errorMessage "request timeout"

/-- `analyzeError(error)`: case-insensitive substring classification of
the failure message, in the source order of the branches (network first,
then auth, quota, the literal "request timeout", else unknown). -/
def analyzeError (message : String) : ErrorAnalysis :=
  let errorMessage := jsToLower message
  if matchesNetworkPhrase errorMessage then
    { type := "NETWORK_ERROR", isNetworkError := true,
      suggestedAction := "Check internet connection and firewall settings" }
  else if matchesAuthPhrase errorMessage then
    { type := "AUTH_ERROR", isNetworkError := false,
      suggestedAction := "Verify Gemini API key configuration" }
  else if matchesQuotaPhrase errorMessage then
    { type := "QUOTA_EXCEEDED", isNetworkError := false,
      suggestedAction := "API quota exceeded. Create a NEW Google Cloud project at https://aistudio.google.com/app/apikey for fresh quota, or wait for quota reset.",
      isQuotaError := true }
  else if matchesTimeoutPhrase errorMessage then
    { type := "TIMEOUT_ERROR", isNetworkError := true,
      suggestedAction := "Check network latency or increase timeout" }
  else
    { type := "UNKNOWN_ERROR", isNetworkError := false,
      suggestedAction := "Check logs for more details" }

/-- One part of a parsed response: an optional `text` field. -/
structure RespPart where
  text : Option String
deriving DecidableEq, Repr

/-- The `content` object of a response candidate: an optional `parts`
array. -/
structure RespContent where
  parts : Option (List RespPart)
deriving DecidableEq, Repr

/-- One candidate of a parsed response: optional `content` and optional
`finishReason`. -/
structure Candidate where
  content : Option RespContent
  finishReason : Option String
deriving DecidableEq, Repr

/-- A parsed JSON response body: an optional `candidates` array. -/
structure GeminiResponse where
  candidates : Option (List Candidate)
deriving DecidableEq, Repr

/-- Errors raised by `extractTextFromResponse`: the explicit
invalid-structure error, the JS `TypeError` raised on the unguarded
`parts[0].text` access, and the empty-text error. -/
inductive ExtractErr where
  | invalidStructure
  | typeError
  | emptyText
deriving DecidableEq, Repr

/-- `extractTextFromResponse(response)`: a non-"STOP" finish reason is
only logged; the structure check covers `candidates`, `candidates[0]` and
its `content`; the unguarded `content.parts[0].text` access raises a
`TypeError` when `parts` is absent or empty; an absent, empty or
whitespace-only text raises the empty-text error; otherwise the trimmed
text is returned. -/
def extractTextFromResponse (response : GeminiResponse) : Except ExtractErr String :=
  match response.candidates with
  | none => .error .invalidStructure
  | some [] => .error .invalidStructure
  | some (c :: _) =>
    match c.content with
    | none => .error .invalidStructure
    | some content =>
      match content.parts with
      | none => .error .typeError
      | some [] => .error .typeError
      | some (p :: _) =>
        match p.text with
        | none => .error .emptyText
        | some text =>
          if jsTrim text == "" then .error .emptyText
          else .ok (jsTrim text)

/-- Metadata of a result envelope, restricted to the fields the fallback
generators populate. -/
structure EnvelopeMeta where
  skill : String
  processingTime : ℕ
  requestId : ℕ
  usedFallback : Bool
  isTranscriptionResponse : Bool := false
  isVisionResponse : Bool := false
  errorType : Option String := none
deriving DecidableEq, Repr

/-- The uniform result envelope returned to callers. -/
structure Envelope where
  response : String
  metadata : EnvelopeMeta
deriving DecidableEq, Repr

/-- The fixed quota remediation text of the transcription fallback. -/
def quotaRemediationTranscription : String :=
  "⚠️ API QUOTA EXCEEDED\n\nYour Gemini API key has hit its usage limit.\n\nTo fix this:\n1. Go to https://aistudio.google.com/app/apikey\n2. Create a NEW Google Cloud project\n3. Generate a new API key from that project\n4. Update GEMINI_API_KEY in your .env file\n5. Restart the app\n\nNote: Keys from the same project share quota limits."

/-- The fixed quota remediation text of the vision fallback (the same
message without the final note line). -/
def quotaRemediationVision : String :=
  "⚠️ API QUOTA EXCEEDED\n\nYour Gemini API key has hit its usage limit.\n\nTo fix this:\n1. Go to https://aistudio.google.com/app/apikey\n2. Create a NEW Google Cloud project\n3. Generate a new API key from that project\n4. Update GEMINI_API_KEY in your .env file\n5. Restart the app"

/-- The `fallbackResponses` lookup of `generateFallbackResponse`:
skill-keyed canned strings with a default. -/
def fallbackResponses (activeSkill : String) : String :=
  if activeSkill == "dsa" then
    "This appears to be a data structures and algorithms problem. Consider breaking it down into smaller components and identifying the appropriate algorithm or data structure to use."
  else if activeSkill == "system-design" then
    "For this system design question, consider scalability, reliability, and the trade-offs between different architectural approaches."
  else if activeSkill == "programming" then
    "This looks like a programming challenge. Focus on understanding the requirements, edge cases, and optimal time/space complexity."
  else
    "I can help analyze this content. Please ensure your Gemini API key is properly configured for detailed analysis."

/-- `generateFallbackResponse(text, activeSkill)`: the plain-text
fallback; it takes no error classification and always returns the
skill-keyed canned message. -/
def generateFallbackResponse (text activeSkill : String) (requestCount : ℕ) : Envelope :=
  { response := fallbackResponses activeSkill,
    metadata := { skill := activeSkill, processingTime := 0,
                  requestId := requestCount, usedFallback := true } }

/-- The `skillKeywords` table of `generateIntelligentFallbackResponse`. -/
def skillKeywords (activeSkill : String) : List String :=
  if activeSkill == "dsa" then
    ["algorithm", "data structure", "array", "tree", "graph", "sort", "search", "complexity", "big o"]
  else if activeSkill == "programming" then
    ["code", "function", "variable", "class", "method", "bug", "debug", "syntax"]
  else if activeSkill == "system-design" then
    ["scalability", "database", "architecture", "microservice", "load balancer", "cache"]
  else if activeSkill == "behavioral" then
    ["interview", "experience", "situation", "leadership", "conflict", "team"]
  else if activeSkill == "sales" then
    ["customer", "deal", "negotiation", "price", "revenue", "prospect"]
  else if activeSkill == "presentation" then
    ["slide", "audience", "public speaking", "presentation", "nervous"]
  else if activeSkill == "data-science" then
    ["data", "model", "machine learning", "statistics", "analytics", "python", "pandas"]
  else if activeSkill == "devops" then
    ["deployment", "ci/cd", "docker", "kubernetes", "infrastructure", "monitoring"]
  else if activeSkill == "negotiation" then
    ["negotiate", "compromise", "agreement", "terms", "conflict resolution"]
  else []

/-- The `questionIndicators` list of `generateIntelligentFallbackResponse`. -/
def questionIndicators : List String :=
  ["how", "what", "why", "when", "where", "can you", "could you", "should i", "?"]

/-- `generateIntelligentFallbackResponse(text, activeSkill, errorAnalysis)`:
the transcription fallback; the quota branch returns the fixed
remediation message, otherwise the keyword/question heuristic picks
between the rephrase prompt and the still-listening message. -/
def generateIntelligentFallbackResponse (text activeSkill : String)
    (errorAnalysis : Option ErrorAnalysis) (requestCount : ℕ) : Envelope :=
  if (errorAnalysis.map (fun ea => ea.isQuotaError)).getD false then
    { response := quotaRemediationTranscription,
      metadata := { skill := activeSkill, processingTime := 0,
                    requestId := requestCount, usedFallback := true,
                    isTranscriptionResponse := true,
                    errorType := some "QUOTA_EXCEEDED" } }
  else
    let textLower := jsToLower text
    let hasRelevantKeywords :=
      (skillKeywords activeSkill).any (fun keyword => strIncludes textLower keyword)
    let seemsLikeQuestion :=
      questionIndicators.any (fun indicator => strIncludes textLower indicator)
    let response :=
      if hasRelevantKeywords || seemsLikeQuestion then
        "I\u0027m having trouble processing that right now, but it sounds like a " ++ activeSkill ++ " question. Could you rephrase or ask more specifically about what you need help with?"
      else
        "Yeah, I\u0027m listening. Ask your question relevant to " ++ activeSkill ++ "."
    { response := response,
      metadata := { skill := activeSkill, processingTime := 0,
                    requestId := requestCount, usedFallback := true,
                    isTranscriptionResponse := true } }

/-- `generateVisionFallbackResponse(userPrompt, activeSkill, errorAnalysis)`:
the vision fallback; the quota branch returns the fixed remediation
message, otherwise the generic cannot-analyze message. -/
def generateVisionFallbackResponse (userPrompt activeSkill : String)
    (errorAnalysis : Option ErrorAnalysis) (requestCount : ℕ) : Envelope :=
  if (errorAnalysis.map (fun ea => ea.isQuotaError)).getD false then
    { response := quotaRemediationVision,
      metadata := { skill := activeSkill, processingTime := 0,
                    requestId := requestCount, usedFallback := true,
                    isVisionResponse := true,
                    errorType := some "QUOTA_EXCEEDED" } }
  else
    { response := "I\u0027m having trouble analyzing the screenshot right now. Please try again or check your internet connection and API key configuration.",
      metadata := { skill := activeSkill, processingTime := 0,
                    requestId := requestCount, usedFallback := true,
                    isVisionResponse := true } }

/-- The failure tail of `processTextWithSkill`: with fallback enabled the
plain-text fallback envelope is returned (the classification of the
failure is never consulted on this path), otherwise the failure is
re-raised. -/
def processTextFailureResult (text activeSkill errMsg : String)
    (fallbackEnabled : Bool) (requestCount : ℕ) : Except String Envelope :=
  if fallbackEnabled then .ok (generateFallbackResponse text activeSkill requestCount)
  else .error errMsg

/-- The failure tail of `processTranscriptionWithIntelligentResponse`:
the failure is classified and, with fallback enabled, handed to the
transcription fallback. -/
def processTranscriptionFailureResult (text activeSkill errMsg : String)
    (fallbackEnabled : Bool) (requestCount : ℕ) : Except String Envelope :=
  let errorAnalysis := analyzeError errMsg
  if fallbackEnabled then
    .ok (generateIntelligentFallbackResponse text activeSkill (some errorAnalysis) requestCount)
  else .error errMsg

/-- The failure tail of `processScreenshotWithPrompt`: the failure is
classified and, with fallback enabled, handed to the vision fallback. -/
def processScreenshotFailureResult (userPrompt activeSkill errMsg : String)
    (fallbackEnabled : Bool) (requestCount : ℕ) : Except String Envelope :=
  let errorAnalysis := analyzeError errMsg
  if fallbackEnabled then
    .ok (generateVisionFallbackResponse userPrompt activeSkill (some errorAnalysis) requestCount)
  else .error errMsg

/-- `const baseDelay = errorInfo.isNetworkError ? 2000 : 1000`. -/
def backoffBaseDelay (isNetworkError : Bool) : ℚ :=
  if isNetworkError then 2000 else 1000

/-- `const delay = baseDelay * attempt + Math.random() * 1000`, with the
jitter `Math.random() * 1000` passed in explicitly. -/
def backoffDelay (isNetworkError : Bool) (attempt : ℕ) (jitter : ℚ) : ℚ :=
  backoffBaseDelay isNetworkError * attempt + jitter

/-- The process-wide counters of the service. -/
structure ServiceState where
  isInitialized : Bool
  requestCount : ℕ
  errorCount : ℕ
deriving DecidableEq, Repr

/-- The state set up by the constructor before `initializeClient` runs:
both counters zero. -/
def initialState : ServiceState :=
  { isInitialized := false, requestCount := 0, errorCount := 0 }

/-- The counter-relevant outcome of one service operation: a processing
call that succeeds (or returns a fallback envelope), a processing call
whose attempt fails (entering the catch block), a call rejected before
any increment because the service is not initialized, and
(re-)initialization, which touches only the initialized flag. -/
inductive ServiceOp where
  | processSuccess
  | processFailure
  | notInitialized
  | clientInit (ok : Bool)
deriving DecidableEq, Repr

/-- One transition of the counters: every processing call increments
`requestCount` on entry; only its catch block increments `errorCount`. -/
def applyOp (s : ServiceState) : ServiceOp → ServiceState
  | .processSuccess => { s with requestCount := s.requestCount + 1 }
  | .processFailure => { s with requestCount := s.requestCount + 1,
                                errorCount := s.errorCount + 1 }
  | .notInitialized => s
  | .clientInit ok => { s with isInitialized := ok }

/-- The service state after a sequence of operations from the initial
state. -/
def runService (ops : List ServiceOp) : ServiceState :=
  ops.foldl applyOp initialState

/-- The `successRate` field of `getStats()`. -/
def successRate (s : ServiceState) : ℚ :=
  if s.requestCount > 0 then
    ((s.requestCount : ℚ) - (s.errorCount : ℚ)) / (s.requestCount : ℚ) * 100
  else 0

/-- The specification-level eligibility of a history turn: not a system
turn and not empty after trimming (stated for turns whose content is
textual). -/
def specEligible (t : HistTurn) : Bool :=
  !(t.role == "system") && !(jsTrim (contentString t.content) == "")

/-- The condition under which the vision history filter raises a
`TypeError`: a non-system turn whose content is truthy but not a string. -/
def visionErrCond (t : HistTurn) : Bool :=
  !(t.role == "system") && jsTruthy t.content && !(isStringVal t.content)

/-- Replaces the finish reason of the first candidate of a response (used
to state that extraction does not depend on it). -/
def setFinishReason (r : GeminiResponse) (fr : Option String) : GeminiResponse :=
  match r.candidates with
  | some (c :: rest) => { candidates := some ({ c with finishReason := fr } :: rest) }
  | other => { candidates := other }

/-!  General lemmas about the embedded JS primitives. -/

theorem dropWhile_dropWhile (p : α → Bool) (l : List α) :
    List.dropWhile p (List.dropWhile p l) = List.dropWhile p l := by
  induction l with
  | nil => rfl
  | cons a as ih =>
    by_cases h : p a
    · rw [List.dropWhile_cons, if_pos h]
      exact ih
    · rw [List.dropWhile_cons, if_neg h, List.dropWhile_cons, if_neg h]

theorem dropWhile_ne_nil_head (p : α → Bool) (l : List α)
    (h : l.dropWhile p ≠ []) : ∃ c cs, l.dropWhile p = c :: cs ∧ p c = false := by
  induction l with
  | nil => simp at h
  | cons a as ih =>
    by_cases hp : p a
    · rw [List.dropWhile_cons, if_pos hp] at h ⊢
      exact ih h
    · rw [List.dropWhile_cons, if_neg hp]
      exact ⟨a, as, rfl, by simpa using hp⟩

theorem dropWhile_getLast? (p : α → Bool) (l : List α)
    (h : l.dropWhile p ≠ []) : (l.dropWhile p).getLast? = l.getLast? := by
  conv_rhs => rw [← List.takeWhile_append_dropWhile p l]
  exact (List.getLast?_append_of_ne_nil _ h).symm

theorem dropWhile_eq_self_of_head (p : α → Bool) (l : List α)
    (h : ∀ c, l.head? = some c → p c = false) : List.dropWhile p l = l := by
  cases l with
  | nil => rfl
  | cons a as =>
    rw [List.dropWhile_cons, if_neg]
    simp [h a rfl]

theorem trimChars_idem (l : List Char) : trimChars (trimChars l) = trimChars l := by
  unfold trimChars
  generalize hA : List.dropWhile Char.isWhitespace l = A
  generalize hB : List.dropWhile Char.isWhitespace A.reverse = B
  by_cases hBnil : B = []
  · subst hBnil
    rfl
  · have hAne : A ≠ [] := by
      intro e
      apply hBnil
      rw [← hB, e]
      rfl
    obtain ⟨c, cs, hcs, hc⟩ := dropWhile_ne_nil_head Char.isWhitespace l
      (by rw [hA]; exact hAne)
    have hAcs : A = c :: cs := by rw [← hA, hcs]
    have hBlast : B.getLast? = some c := by
      rw [← hB, dropWhile_getLast? _ _ (by rw [hB]; exact hBnil),
        List.getLast?_reverse, hAcs]
      rfl
    have hstep1 : List.dropWhile Char.isWhitespace B.reverse = B.reverse := by
      apply dropWhile_eq_self_of_head
      intro d hd
      rw [List.head?_reverse, hBlast] at hd
      obtain rfl : c = d := by injection hd
      exact hc
    rw [hstep1, List.reverse_reverse, ← hB, dropWhile_dropWhile]

theorem jsTrim_idem (s : String) : jsTrim (jsTrim s) = jsTrim s :=
  congrArg String.mk (trimChars_idem s.data)

theorem trimChars_cons_ne_nil (c : Char) (cs : List Char)
    (hc : c.isWhitespace = false) : trimChars (c :: cs) ≠ [] := by
  unfold trimChars
  rw [List.dropWhile_cons, if_neg (by simp [hc])]
  intro hnil
  rw [List.reverse_eq_nil_iff, List.dropWhile_eq_nil_iff] at hnil
  have := hnil c (by simp)
  rw [hc] at this
  exact Bool.false_ne_true this

theorem jsTrim_ne_empty_of_head (s : String) (c : Char) (cs : List Char)
    (h : s.data = c :: cs) (hc : c.isWhitespace = false) : jsTrim s ≠ "" := by
  intro e
  have : trimChars s.data = [] := congrArg String.data e
  rw [h] at this
  exact trimChars_cons_ne_nil c cs hc this

theorem formatUserMessage_data (text skill : String) :
    (formatUserMessage text skill).data
      = 'C' :: ("ontext: ".data ++ ((jsToUpper skill).data ++
          (" analysis request\n\nText to analyze:\n".data ++ text.data))) := by
  simp only [formatUserMessage, String.data_append, List.append_assoc]
  rfl

theorem jsTrim_formatUserMessage_ne_empty (text skill : String) :
    jsTrim (formatUserMessage text skill) ≠ "" :=
  jsTrim_ne_empty_of_head _ 'C' _ (formatUserMessage_data text skill) (by decide)

theorem formatUserMessage_ne_empty (text skill : String) :
    formatUserMessage text skill ≠ "" := by
  intro e
  have : (formatUserMessage text skill).data = [] := congrArg String.data e
  rw [formatUserMessage_data] at this
  exact List.cons_ne_nil _ _ this

theorem hasPrefixList_append [DecidableEq α] (l p q : List α)
    (h : hasPrefixList l (p ++ q) = true) :
    hasPrefixList (l.drop p.length) q = true := by
  induction p generalizing l with
  | nil => simpa using h
  | cons b bs ih =>
    cases l with
    | nil => simp [hasPrefixList] at h
    | cons a as =>
      rw [List.cons_append, hasPrefixList] at h
      simp only [Bool.and_eq_true] at h
      simpa using ih as h.2

theorem hasSubList_of_prefixAt [DecidableEq α] (sub l : List α) (i : ℕ)
    (h : hasPrefixList (l.drop i) sub = true) : hasSubList sub l = true := by
  induction i generalizing l with
  | zero =>
    cases l with
    | nil => simpa [hasSubList] using h
    | cons a as =>
      rw [hasSubList]
      simp only [List.drop_zero] at h
      rw [h]
      rfl
  | succ i ih =>
    cases l with
    | nil => simpa [hasSubList] using h
    | cons a as =>
      rw [hasSubList]
      have := ih as (by simpa using h)
      rw [this]
      simp

theorem hasSubList_exists [DecidableEq α] (sub l : List α)
    (h : hasSubList sub l = true) :
    ∃ i, hasPrefixList (l.drop i) sub = true := by
  induction l with
  | nil => exact ⟨0, by simpa [hasSubList] using h⟩
  | cons a as ih =>
    rw [hasSubList, Bool.or_eq_true] at h
    cases h with
    | inl h => exact ⟨0, by simpa using h⟩
    | inr h =>
      obtain ⟨i, hi⟩ := ih h
      exact ⟨i + 1, by simpa using hi⟩

theorem hasSubList_append_right [DecidableEq α] (p q l : List α)
    (h : hasSubList (p ++ q) l = true) : hasSubList q l = true := by
  obtain ⟨i, hi⟩ := hasSubList_exists _ _ h
  have h2 := hasPrefixList_append _ p q hi
  rw [List.drop_drop] at h2
  exact hasSubList_of_prefixAt _ _ _ h2

theorem strIncludes_timeout_of_request_timeout (m : String)
    (h : strIncludes m "request timeout" = true) :
    strIncludes m "timeout" = true := by
  unfold strIncludes at h ⊢
  have hdata : ("request timeout" : String).data
      = ("request " : String).data ++ ("timeout" : String).data := by decide
  rw [hdata] at h
  exact hasSubList_append_right _ _ _ h

/-- C3 counterexample: the message "Request timeout" contains the literal
phrase "request timeout" (case-insensitively), yet `analyzeError`
classifies it as `NETWORK_ERROR`, not `TIMEOUT_ERROR`: the network branch
matches its "timeout" substring first. -/
theorem analyzeError_request_timeout_counterexample :
    strIncludes (jsToLower "Request timeout") "request timeout" = true
    ∧ (analyzeError "Request timeout").type = "NETWORK_ERROR"
    ∧ (analyzeError "Request timeout").type ≠ "TIMEOUT_ERROR" := by
  refine ⟨by decide, rfl, by decide⟩

/-- C3 amended: every failure message containing the literal phrase
"request timeout" (case-insensitively) is classified by `analyzeError` as
`NETWORK_ERROR` (retryable, network-flagged), because the earlier network
branch already matches the "timeout" substring; the `TIMEOUT_ERROR`
branch is unreachable for such messages. -/
theorem analyzeError_request_timeout_is_network (msg : String)
    (h : strIncludes (jsToLower msg) "request timeout" = true) :
    analyzeError msg
      = { type := "NETWORK_ERROR", isNetworkError := true,
          suggestedAction := "Check internet connection and firewall settings",
          isQuotaError := false } := by
  have ht : strIncludes (jsToLower msg) "timeout" = true :=
    strIncludes_timeout_of_request_timeout _ h
  unfold analyzeError matchesNetworkPhrase
  simp [ht]

/-- Witness for the C3 amended theorem at the concrete message
"Request timeout". -/
theorem analyzeError_request_timeout_is_network_witness :
    analyzeError "Request timeout"
      = { type := "NETWORK_ERROR", isNetworkError := true,
          suggestedAction := "Check internet connection and firewall settings",
          isQuotaError := false } :=
  analyzeError_request_timeout_is_network "Request timeout" (by decide)

/-- C8 counterexample: the message "timeout 429" contains "429" but is
classified `NETWORK_ERROR` with the quota flag clear, because the network
branch has precedence; so "a message containing 429 classifies as QUOTA"
is not universally true. -/
theorem analyzeError_429_counterexample :
    strIncludes (jsToLower "timeout 429") "429" = true
    ∧ (analyzeError "timeout 429").type = "NETWORK_ERROR"
    ∧ (analyzeError "timeout 429").isQuotaError = false := by
  refine ⟨by decide, rfl, rfl⟩

/-- C8 amended: a message containing "429" and none of the
higher-precedence network or auth phrases classifies as `QUOTA_EXCEEDED`
with the dedicated quota flag set; any message containing "ECONNREFUSED"
classifies as `NETWORK_ERROR`; a message matching none of the phrase
lists classifies as `UNKNOWN_ERROR`. -/
theorem analyzeError_classification (msg : String) :
    (matchesNetworkPhrase (jsToLower msg) = false → matchesAuthPhrase (jsToLower msg) = false →
      strIncludes (jsToLower msg) "429" = true →
      (analyzeError msg).type = "QUOTA_EXCEEDED" ∧ (analyzeError msg).isQuotaError = true)
    ∧ (strIncludes (jsToLower msg) "econnrefused" = true →
      (analyzeError msg).type = "NETWORK_ERROR" ∧ (analyzeError msg).isQuotaError = false)
    ∧ (matchesNetworkPhrase (jsToLower msg) = false → matchesAuthPhrase (jsToLower msg) = false →
      matchesQuotaPhrase (jsToLower msg) = false → matchesTimeoutPhrase (jsToLower msg) = false →
      (analyzeError msg).type = "UNKNOWN_ERROR" ∧ (analyzeError msg).isQuotaError = false) := by
  refine ⟨?_, ?_, ?_⟩
  · intro hn ha h429
    have hq : matchesQuotaPhrase (jsToLower msg) = true := by
      unfold matchesQuotaPhrase
      simp [h429]
    unfold analyzeError
    simp [hn, ha, hq]
  · intro h
    have hn : matchesNetworkPhrase (jsToLower msg) = true := by
      unfold matchesNetworkPhrase
      simp [h]
    unfold analyzeError
    simp [hn]
  · intro hn ha hq ht
    unfold analyzeError
    simp [hn, ha, hq, ht]

/-- Witness for the C8 amended theorem at the concrete messages
"http 429", "connect ECONNREFUSED 127.0.0.1" and "boom". -/
theorem analyzeError_classification_witness :
    ((analyzeError "http 429").type = "QUOTA_EXCEEDED"
      ∧ (analyzeError "http 429").isQuotaError = true)
    ∧ ((analyzeError "connect ECONNREFUSED 127.0.0.1").type = "NETWORK_ERROR"
      ∧ (analyzeError "connect ECONNREFUSED 127.0.0.1").isQuotaError = false)
    ∧ ((analyzeError "boom").type = "UNKNOWN_ERROR"
      ∧ (analyzeError "boom").isQuotaError = false) :=
  ⟨(analyzeError_classification "http 429").1 (by decide) (by decide) (by decide),
   (analyzeError_classification "connect ECONNREFUSED 127.0.0.1").2.1 (by decide),
   (analyzeError_classification "boom").2.2 (by decide) (by decide) (by decide) (by decide)⟩

/-- C9: with the jitter `Math.random() * 1000` lying in `[0, 1000)`, the
backoff delay before the retry after failed attempt `attempt` equals
`baseDelay * attempt + jitter`, is at least `baseDelay * attempt` and
strictly less than `baseDelay * attempt + 1000`, where `baseDelay` is
2000 ms when the classified failure is network-related and 1000 ms
otherwise. -/
theorem backoffDelay_formula (msg : String) (attempt : ℕ) (jitter : ℚ)
    (h0 : 0 ≤ jitter) (h1 : jitter < 1000) :
    backoffDelay (analyzeError msg).isNetworkError attempt jitter
        = backoffBaseDelay (analyzeError msg).isNetworkError * attempt + jitter
      ∧ backoffBaseDelay (analyzeError msg).isNetworkError * attempt
          ≤ backoffDelay (analyzeError msg).isNetworkError attempt jitter
      ∧ backoffDelay (analyzeError msg).isNetworkError attempt jitter
          < backoffBaseDelay (analyzeError msg).isNetworkError * attempt + 1000
      ∧ ((analyzeError msg).isNetworkError = true →
          backoffBaseDelay (analyzeError msg).isNetworkError = 2000)
      ∧ ((analyzeError msg).isNetworkError = false →
          backoffBaseDelay (analyzeError msg).isNetworkError = 1000) := by
  refine ⟨rfl, ?_, ?_, ?_, ?_⟩
  · unfold backoffDelay
    linarith
  · unfold backoffDelay
    linarith
  · intro h
    simp [backoffBaseDelay, h]
  · intro h
    simp [backoffBaseDelay, h]

/-- Witness for C9 at the concrete network failure "fetch failed",
attempt 1 and jitter 500. -/
theorem backoffDelay_formula_witness :
    backoffDelay (analyzeError "fetch failed").isNetworkError 1 500
        = backoffBaseDelay (analyzeError "fetch failed").isNetworkError * 1 + 500
      ∧ backoffBaseDelay (analyzeError "fetch failed").isNetworkError * 1
          ≤ backoffDelay (analyzeError "fetch failed").isNetworkError 1 500
      ∧ backoffDelay (analyzeError "fetch failed").isNetworkError 1 500
          < backoffBaseDelay (analyzeError "fetch failed").isNetworkError * 1 + 1000
      ∧ ((analyzeError "fetch failed").isNetworkError = true →
          backoffBaseDelay (analyzeError "fetch failed").isNetworkError = 2000)
      ∧ ((analyzeError "fetch failed").isNetworkError = false →
          backoffBaseDelay (analyzeError "fetch failed").isNetworkError = 1000) :=
  backoffDelay_formula "fetch failed" 1 500 (by norm_num) (by norm_num)

theorem errorCount_le_requestCount_foldl (ops : List ServiceOp) (s : ServiceState)
    (h : s.errorCount ≤ s.requestCount) :
    (ops.foldl applyOp s).errorCount ≤ (ops.foldl applyOp s).requestCount := by
  induction ops generalizing s with
  | nil => simpa using h
  | cons op rest ih =>
    apply ih
    cases op <;> simp [applyOp] <;> omega

/-- C10: starting from the initial state, every sequence of service
operations preserves `errorCount ≤ requestCount` (each error increment
happens inside a call that already incremented the request counter), and
consequently the `successRate` reported by `getStats` is always between
0 and 100. -/
theorem service_counters_invariant (ops : List ServiceOp) :
    (runService ops).errorCount ≤ (runService ops).requestCount
    ∧ 0 ≤ successRate (runService ops)
    ∧ successRate (runService ops) ≤ 100 := by
  have hinv : (runService ops).errorCount ≤ (runService ops).requestCount :=
    errorCount_le_requestCount_foldl ops initialState (by simp [initialState])
  refine ⟨hinv, ?_, ?_⟩
  · unfold successRate
    split
    case isTrue h =>
      have hreq : (0:ℚ) < ((runService ops).requestCount : ℚ) := by exact_mod_cast h
      have herr : ((runService ops).errorCount : ℚ) ≤ ((runService ops).requestCount : ℚ) := by
        exact_mod_cast hinv
      apply mul_nonneg _ (by norm_num)
      apply div_nonneg (by linarith) (by linarith)
    case isFalse h => exact le_refl 0
  · unfold successRate
    split
    case isTrue h =>
      have hreq : (0:ℚ) < ((runService ops).requestCount : ℚ) := by exact_mod_cast h
      have herr : (0:ℚ) ≤ ((runService ops).errorCount : ℚ) := by positivity
      rw [div_mul_eq_mul_div, div_le_iff₀ hreq]
      nlinarith
    case isFalse h => norm_num

/-- C7: for every parsed response, (i) a present first candidate with
content, a non-empty parts array and non-whitespace text extracts to the
trimmed text, independently of the finish reason; (ii) each absent
segment of the `candidates[0].content.parts[0].text` path fails; (iii)
absent, empty or whitespace-only text fails; and a concrete well-formed
response carrying "  OK  " with a non-STOP finish reason yields exactly
"OK". -/
theorem extractTextFromResponse_spec (r : GeminiResponse) :
    (∀ c rest ct p ps t, r.candidates = some (c :: rest) → c.content = some ct →
        ct.parts = some (p :: ps) → p.text = some t → (jsTrim t == "") = false →
        extractTextFromResponse r = .ok (jsTrim t))
    ∧ (∀ fr, extractTextFromResponse (setFinishReason r fr) = extractTextFromResponse r)
    ∧ (r.candidates = none → extractTextFromResponse r = .error .invalidStructure)
    ∧ (r.candidates = some [] → extractTextFromResponse r = .error .invalidStructure)
    ∧ (∀ c rest, r.candidates = some (c :: rest) → c.content = none →
        extractTextFromResponse r = .error .invalidStructure)
    ∧ (∀ c rest ct, r.candidates = some (c :: rest) → c.content = some ct →
        ct.parts = none → extractTextFromResponse r = .error .typeError)
    ∧ (∀ c rest ct, r.candidates = some (c :: rest) → c.content = some ct →
        ct.parts = some [] → extractTextFromResponse r = .error .typeError)
    ∧ (∀ c rest ct p ps, r.candidates = some (c :: rest) → c.content = some ct →
        ct.parts = some (p :: ps) → p.text = none →
        extractTextFromResponse r = .error .emptyText)
    ∧ (∀ c rest ct p ps t, r.candidates = some (c :: rest) → c.content = some ct →
        ct.parts = some (p :: ps) → p.text = some t → (jsTrim t == "") = true →
        extractTextFromResponse r = .error .emptyText)
    ∧ extractTextFromResponse ⟨some [⟨some ⟨some [⟨some "  OK  "⟩]⟩, some "MAX_TOKENS"⟩]⟩
        = .ok "OK" := by
  refine ⟨?_, ?_, ?_, ?_, ?_, ?_, ?_, ?_, ?_, by rfl⟩
  · intro c rest ct p ps t h1 h2 h3 h4 h5
    simp [extractTextFromResponse, h1, h2, h3, h4, h5]
  · intro fr
    unfold setFinishReason
    cases hc : r.candidates with
    | none =>
      unfold extractTextFromResponse
      simp [hc]
    | some l =>
      cases l with
      | nil =>
        unfold extractTextFromResponse
        simp [hc]
      | cons c rest =>
        unfold extractTextFromResponse
        simp [hc]
  · intro h
    simp [extractTextFromResponse, h]
  · intro h
    simp [extractTextFromResponse, h]
  · intro c rest h1 h2
    simp [extractTextFromResponse, h1, h2]
  · intro c rest ct h1 h2 h3
    simp [extractTextFromResponse, h1, h2, h3]
  · intro c rest ct h1 h2 h3
    simp [extractTextFromResponse, h1, h2, h3]
  · intro c rest ct p ps h1 h2 h3 h4
    simp [extractTextFromResponse, h1, h2, h3, h4]
  · intro c rest ct p ps t h1 h2 h3 h4 h5
    simp [extractTextFromResponse, h1, h2, h3, h4, h5]

/-- Witness for C7 at a concrete well-formed response (text " OK ", a
non-STOP finish reason) and a concrete response with no candidates. -/
theorem extractTextFromResponse_spec_witness :
    extractTextFromResponse ⟨some [⟨some ⟨some [⟨some " OK "⟩]⟩, some "MAX_TOKENS"⟩]⟩
        = .ok (jsTrim " OK ")
    ∧ extractTextFromResponse ⟨none⟩ = .error .invalidStructure :=
  ⟨(extractTextFromResponse_spec ⟨some [⟨some ⟨some [⟨some " OK "⟩]⟩, some "MAX_TOKENS"⟩]⟩).1
      _ _ _ _ _ " OK " rfl rfl rfl rfl (by decide),
   (extractTextFromResponse_spec ⟨none⟩).2.2.1 rfl⟩

theorem buildGeminiRequestWithHistory_ok (text activeSkill : String)
    (hist : List HistTurn) (ctx : SkillContext) :
    buildGeminiRequestWithHistory text activeSkill hist ctx
      = .ok { contents := (hist.filter histEligible).map mapHistTurn ++
                [{ role := "user",
                   parts := [{ text := some (formatUserMessage text activeSkill) }] }],
              systemInstruction :=
                if ctx.skillPrompt == "" then none
                else some [{ text := some ctx.skillPrompt }],
              generationConfig := textGenConfig } := by
  unfold buildGeminiRequestWithHistory
  rw [if_neg]
  intro hor
  rw [Bool.or_eq_true] at hor
  cases hor with
  | inl h => exact formatUserMessage_ne_empty text activeSkill (by simpa using h)
  | inr h => exact jsTrim_formatUserMessage_ne_empty text activeSkill (by simpa using h)

/-- C2 counterexample: for input "hi" and skill "dsa" the built request's
final turn text is the formatted analysis-request message, which is not
equal to the original input "hi". -/
theorem plain_final_turn_counterexample :
    buildGeminiRequestWithHistory "hi" "dsa" [] ⟨"", false⟩
      = .ok { contents := [{ role := "user",
                             parts := [{ text := some "Context: DSA analysis request\n\nText to analyze:\nhi" }] }],
              systemInstruction := none, generationConfig := textGenConfig }
    ∧ ("Context: DSA analysis request\n\nText to analyze:\nhi" : String) ≠ "hi" := by
  refine ⟨by rfl, by decide⟩

/-- C2 amended: for every non-empty input text and skill, the plain-text
build succeeds and the final turn has role "user", but its text part is
the formatted message `Context: <SKILL> analysis request ... <input>`
(which embeds the original input as a suffix), not the raw input itself. -/
theorem plain_final_turn (text activeSkill : String) (src : List HistTurn)
    (ctx : SkillContext) (h : text ≠ "") :
    ∃ req, buildGeminiRequest text activeSkill src ctx = .ok req
      ∧ req.contents.getLast? = some { role := "user",
                                       parts := [{ text := some (formatUserMessage text activeSkill) }] }
      ∧ formatUserMessage text activeSkill
          = "Context: " ++ jsToUpper activeSkill ++ " analysis request\n\nText to analyze:\n" ++ text := by
  have hb := buildGeminiRequestWithHistory_ok text activeSkill (getConversationHistory 15 src) ctx
  exact ⟨_, hb, List.getLast?_concat _, rfl⟩

/-- Witness for the C2 amended theorem at input "hi", skill "dsa", empty
history and an empty skill context. -/
theorem plain_final_turn_witness :
    ∃ req, buildGeminiRequest "hi" "dsa" [] ⟨"", false⟩ = .ok req
      ∧ req.contents.getLast? = some { role := "user",
                                       parts := [{ text := some (formatUserMessage "hi" "dsa") }] }
      ∧ formatUserMessage "hi" "dsa"
          = "Context: " ++ jsToUpper "dsa" ++ " analysis request\n\nText to analyze:\nhi" :=
  plain_final_turn "hi" "dsa" [] ⟨"", false⟩ (by decide)

theorem buildVisionRequest_ok (img : Option ImageData) (prompt activeSkill : String)
    (src : List HistTurn) (pl : Option String) (filtered : List HistTurn)
    (hf : filterE visionEligible (getConversationHistory 5 src) = .ok filtered) :
    buildVisionRequest img prompt activeSkill src pl
      = .ok { contents := filtered.map mapHistTurn ++
                [{ role := "user", parts := visionUserParts img prompt }],
              systemInstruction := some [{ text := some (getVisionSystemPrompt activeSkill pl) }],
              generationConfig := visionGenConfig } := by
  simp only [buildVisionRequest]
  rw [hf]
  rfl

/-- C4 counterexample: with the current-turn text empty, the plain-text
build does not fail with an invalid-input error as claimed; it succeeds,
because the formatted message always contains the non-empty context
preamble. (The transcription build does fail, as a contrast.) -/
theorem empty_input_plain_counterexample :
    buildGeminiRequestWithHistory "" "dsa" [] ⟨"", false⟩
      = .ok { contents := [{ role := "user",
                             parts := [{ text := some "Context: DSA analysis request\n\nText to analyze:\n" }] }],
              systemInstruction := none, generationConfig := textGenConfig }
    ∧ buildIntelligentTranscriptionRequest (.vstr "") "dsa" [] ⟨"", false⟩ none
      = .error (.invalidInput
          "Empty or invalid transcription text provided to buildIntelligentTranscriptionRequest") := by
  refine ⟨by rfl, by rfl⟩

/-- C4 amended: for input that is empty after cleaning (empty,
whitespace-only or non-string), the transcription build fails with the
invalid-input error and the vision build succeeds, substituting the
default analysis prompt as the text of the final user turn; the
plain-text build, however, does not fail: it succeeds for every input
text, because the formatted message embeds the non-empty context
preamble, so its emptiness check never fires. -/
theorem empty_input_handling (v : JSVal) (activeSkill : String) (src : List HistTurn)
    (ctx : SkillContext) (pl : Option String) (h : cleanTextOf v = "") :
    buildIntelligentTranscriptionRequest v activeSkill src ctx pl
        = .error (.invalidInput
            "Empty or invalid transcription text provided to buildIntelligentTranscriptionRequest")
    ∧ (∀ img, ∃ r, buildVisionRequest img "" activeSkill [] pl = .ok r
        ∧ r.contents.getLast? = some { role := "user", parts := visionUserParts img "" }
        ∧ (visionUserParts img "").getLast?
            = some { text := some "Please analyze this screenshot and provide helpful insights." })
    ∧ (∀ text : String, ∃ r, buildGeminiRequest text activeSkill src ctx = .ok r) := by
  refine ⟨?_, ?_, ?_⟩
  · unfold buildIntelligentTranscriptionRequest
    simp [h]
  · intro img
    have hf : filterE visionEligible (getConversationHistory 5 ([] : List HistTurn)) = .ok [] := rfl
    have hb := buildVisionRequest_ok img "" activeSkill [] pl [] hf
    refine ⟨_, hb, ?_, ?_⟩
    · simp
    · exact List.getLast?_concat _
  · intro text
    exact ⟨_, buildGeminiRequestWithHistory_ok text activeSkill (getConversationHistory 15 src) ctx⟩

/-- Witness for the C4 amended theorem at the whitespace-only input
"  ", skill "dsa", no history, no image. -/
theorem empty_input_handling_witness :
    buildIntelligentTranscriptionRequest (.vstr "  ") "dsa" [] ⟨"", false⟩ none
        = .error (.invalidInput
            "Empty or invalid transcription text provided to buildIntelligentTranscriptionRequest")
    ∧ (∀ img, ∃ r, buildVisionRequest img "" "dsa" [] none = .ok r
        ∧ r.contents.getLast? = some { role := "user", parts := visionUserParts img "" }
        ∧ (visionUserParts img "").getLast?
            = some { text := some "Please analyze this screenshot and provide helpful insights." })
    ∧ (∀ text : String, ∃ r, buildGeminiRequest text "dsa" [] ⟨"", false⟩ = .ok r) :=
  empty_input_handling (.vstr "  ") "dsa" [] ⟨"", false⟩ none (by decide)

theorem exceptBind_ok (a : α) (f : α → Except ε β) : (Except.ok a >>= f) = f a := rfl

theorem exceptBind_error (e : ε) (f : α → Except ε β) :
    ((Except.error e : Except ε α) >>= f) = Except.error e := rfl

theorem exceptMap_ok (a : α) (f : α → β) :
    (f <$> (Except.ok a : Except ε α)) = Except.ok (f a) := rfl

theorem exceptMap_error (e : ε) (f : α → β) :
    (f <$> (Except.error e : Except ε α)) = Except.error e := rfl

theorem filterE_ok_of_forall (p : α → Except ε Bool) (l : List α)
    (h : ∀ x ∈ l, ∃ b, p x = .ok b) : ∃ res, filterE p l = .ok res := by
  induction l with
  | nil => exact ⟨[], rfl⟩
  | cons a as ih =>
    obtain ⟨b, hb⟩ := h a (List.mem_cons_self a as)
    obtain ⟨res, hres⟩ := ih (fun x hx => h x (List.mem_cons_of_mem a hx))
    exact ⟨if b then a :: res else res, by simp [filterE, hb, hres, exceptBind_ok, exceptMap_ok]⟩

theorem filterE_error_of_mem (p : α → Except ε Bool) (l : List α) (x : α)
    (hx : x ∈ l) (e : ε) (he : p x = .error e) : ∃ ev, filterE p l = .error ev := by
  induction l with
  | nil => cases hx
  | cons a as ih =>
    rcases List.mem_cons.mp hx with rfl | hmem
    · exact ⟨e, by simp [filterE, he, exceptBind_error, exceptMap_error]⟩
    · cases hpa : p a with
      | error e2 => exact ⟨e2, by simp [filterE, hpa, exceptBind_error, exceptMap_error]⟩
      | ok b =>
        obtain ⟨ev, hev⟩ := ih hmem
        exact ⟨ev, by simp [filterE, hpa, hev, exceptBind_ok, exceptMap_error]⟩

theorem visionEligible_ok_of_not_errCond (t : HistTurn) (h : visionErrCond t = false) :
    ∃ b, visionEligible t = .ok b := by
  obtain ⟨role, content⟩ := t
  by_cases h1 : role == "system"
  · exact ⟨false, by simp [visionEligible, h1]⟩
  · cases content with
    | vstr s =>
      by_cases h2 : s == ""
      · exact ⟨false, by simp [visionEligible, h1, jsTruthy, h2]⟩
      · exact ⟨!(jsTrim s == ""), by simp [visionEligible, h1, jsTruthy, h2]⟩
    | vnum n =>
      by_cases h2 : n == 0
      · exact ⟨false, by simp [visionEligible, h1, jsTruthy, h2]⟩
      · exfalso
        simp [visionErrCond, h1, jsTruthy, h2, isStringVal] at h
    | vnull => exact ⟨false, by simp [visionEligible, h1, jsTruthy]⟩
    | vundef => exact ⟨false, by simp [visionEligible, h1, jsTruthy]⟩
    | vbool b =>
      cases b with
      | false => exact ⟨false, by simp [visionEligible, h1, jsTruthy]⟩
      | true =>
        exfalso
        simp [visionErrCond, h1, jsTruthy, isStringVal] at h

theorem visionEligible_error_of_errCond (t : HistTurn) (h : visionErrCond t = true) :
    ∃ e, visionEligible t = .error e := by
  obtain ⟨role, content⟩ := t
  simp only [visionErrCond, Bool.and_eq_true, Bool.not_eq_true'] at h
  obtain ⟨⟨h1, h2⟩, h3⟩ := h
  cases content with
  | vstr s => simp [isStringVal] at h3
  | vnum n =>
    exact ⟨.typeError "event.content.trim is not a function",
      by simp [visionEligible, h1, h2]⟩
  | vnull => simp [jsTruthy] at h2
  | vundef => simp [jsTruthy] at h2
  | vbool b =>
    exact ⟨.typeError "event.content.trim is not a function",
      by simp [visionEligible, h1, h2]⟩

theorem buildIntelligentTranscriptionRequestWithHistory_ok (text activeSkill : String)
    (hist : List HistTurn) (ctx : SkillContext) (pl : Option String)
    (h : jsTrim text ≠ "") :
    buildIntelligentTranscriptionRequestWithHistory (.vstr text) activeSkill hist ctx pl
      = .ok { contents := (takeLast 8 (hist.filter histEligible)).filterMap mapTranscHistTurn ++
                [{ role := "user", parts := [{ text := some (jsTrim text) }] }],
              systemInstruction := some [{ text := some (
                if ctx.skillPrompt == "" then getIntelligentTranscriptionPrompt activeSkill pl
                else ctx.skillPrompt ++ "\n\n" ++ getIntelligentTranscriptionPrompt activeSkill pl) }],
              generationConfig := textGenConfig } := by
  have htext : text ≠ "" := by
    intro e
    apply h
    rw [e]
    rfl
  have hclean : cleanTextOf (.vstr text) = jsTrim text := by
    simp [cleanTextOf, jsTruthy, isStringVal, contentString, htext]
  simp only [buildIntelligentTranscriptionRequestWithHistory, hclean]
  rw [if_neg (by simp [h]), if_neg (by simp)]

/-- C5 counterexample: a vision-kind build whose history contains a turn
with the truthy non-string content `42` fails with a `TypeError` (the
vision filter calls `.trim()` without the `typeof` guard), contradicting
the claim that such turns never cause a failure. -/
theorem vision_history_typeError_counterexample :
    buildVisionRequest (some ⟨"IMG", ""⟩) "p" "dsa" [⟨"user", .vnum 42⟩] none
      = .error (.typeError "event.content.trim is not a function") := by
  rfl

/-- C5 amended: for the plain-text and transcription kinds, history turns
with empty or non-string content are dropped silently and never cause the
build to fail; for the vision kind, turns with falsy content are dropped,
but a non-system turn in the window whose content is a truthy non-string
value makes the build fail with a `TypeError` (the vision filter lacks
the `typeof` guard); the vision build succeeds when no turn in the window
has truthy non-string content. -/
theorem history_turn_dropping (text activeSkill : String)
    (hist : List HistTurn) (ctx : SkillContext) (pl : Option String)
    (img : Option ImageData) (prompt : String) :
    (∃ r, buildGeminiRequestWithHistory text activeSkill hist ctx = .ok r
        ∧ r.contents.dropLast = (hist.filter histEligible).map mapHistTurn)
    ∧ (jsTrim text ≠ "" →
        ∃ r, buildIntelligentTranscriptionRequestWithHistory (.vstr text) activeSkill hist ctx pl
            = .ok r
          ∧ r.contents.dropLast
              = (takeLast 8 (hist.filter histEligible)).filterMap mapTranscHistTurn)
    ∧ ((∀ t ∈ getConversationHistory 5 hist, visionErrCond t = false) →
        ∃ r, buildVisionRequest img prompt activeSkill hist pl = .ok r)
    ∧ (∀ t ∈ getConversationHistory 5 hist, visionErrCond t = true →
        ∃ e, buildVisionRequest img prompt activeSkill hist pl = .error e) := by
  refine ⟨?_, ?_, ?_, ?_⟩
  · exact ⟨_, buildGeminiRequestWithHistory_ok text activeSkill hist ctx,
      List.dropLast_concat ..⟩
  · intro h
    exact ⟨_, buildIntelligentTranscriptionRequestWithHistory_ok text activeSkill hist ctx pl h,
      List.dropLast_concat ..⟩
  · intro hall
    obtain ⟨res, hres⟩ := filterE_ok_of_forall visionEligible (getConversationHistory 5 hist)
      (fun t ht => visionEligible_ok_of_not_errCond t (hall t ht))
    exact ⟨_, buildVisionRequest_ok img prompt activeSkill hist pl res hres⟩
  · intro t ht hcond
    obtain ⟨e, he⟩ := visionEligible_error_of_errCond t hcond
    obtain ⟨ev, hev⟩ := filterE_error_of_mem visionEligible (getConversationHistory 5 hist) t ht e he
    refine ⟨ev, ?_⟩
    simp only [buildVisionRequest]
    rw [hev]
    rfl

/-- Witness for the C5 amended theorem: a history with a null-content
turn (dropped everywhere without failure) and, for the failure conjunct,
a history with a truthy numeric-content turn. -/
theorem history_turn_dropping_witness :
    (∃ r, buildGeminiRequestWithHistory "hi" "dsa" [⟨"user", .vnull⟩] ⟨"", false⟩ = .ok r
        ∧ r.contents.dropLast
            = (([⟨"user", .vnull⟩] : List HistTurn).filter histEligible).map mapHistTurn)
    ∧ (∃ r, buildIntelligentTranscriptionRequestWithHistory (.vstr "hi") "dsa"
            [⟨"user", .vnull⟩] ⟨"", false⟩ none = .ok r
        ∧ r.contents.dropLast
            = (takeLast 8 (([⟨"user", .vnull⟩] : List HistTurn).filter histEligible)).filterMap
                mapTranscHistTurn)
    ∧ (∃ r, buildVisionRequest none "p" "dsa" [⟨"user", .vnull⟩] none = .ok r)
    ∧ (∃ e, buildVisionRequest none "p" "dsa" [⟨"user", .vnum 1⟩] none = .error e) :=
  ⟨(history_turn_dropping "hi" "dsa" [⟨"user", .vnull⟩] ⟨"", false⟩ none none "p").1,
   (history_turn_dropping "hi" "dsa" [⟨"user", .vnull⟩] ⟨"", false⟩ none none "p").2.1
     (by decide),
   (history_turn_dropping "hi" "dsa" [⟨"user", .vnull⟩] ⟨"", false⟩ none none "p").2.2.1
     (by decide),
   (history_turn_dropping "hi" "dsa" [⟨"user", .vnum 1⟩] ⟨"", false⟩ none none "p").2.2.2
     ⟨"user", .vnum 1⟩ (by decide) (by decide)⟩

/-- C1 counterexample: for a failure message classified as quota-related
("429"), the plain-text entry point's fallback returns the skill-keyed
generic message, not the fixed quota remediation message. -/
theorem plain_quota_fallback_counterexample :
    (analyzeError "429").isQuotaError = true
    ∧ processTextFailureResult "some question" "dsa" "429" true 1
        = .ok { response := fallbackResponses "dsa",
                metadata := { skill := "dsa", processingTime := 0, requestId := 1,
                              usedFallback := true } }
    ∧ fallbackResponses "dsa" ≠ quotaRemediationTranscription
    ∧ fallbackResponses "dsa" ≠ quotaRemediationVision := by
  refine ⟨rfl, rfl, by decide, by decide⟩

/-- C1 amended: after a quota-classified failure with fallback enabled,
the transcription and vision entry points return their fixed quota
remediation message (the vision variant lacking the final note line);
the plain-text entry point ignores the classification and returns the
skill-keyed generic fallback message, which is never a quota remediation
message. -/
theorem quota_fallback_messages (text activeSkill errMsg : String) (n : ℕ)
    (h : (analyzeError errMsg).isQuotaError = true) :
    (processTranscriptionFailureResult text activeSkill errMsg true n).map
        (fun env => env.response) = .ok quotaRemediationTranscription
    ∧ (processScreenshotFailureResult text activeSkill errMsg true n).map
        (fun env => env.response) = .ok quotaRemediationVision
    ∧ (processTextFailureResult text activeSkill errMsg true n).map
        (fun env => env.response) = .ok (fallbackResponses activeSkill)
    ∧ fallbackResponses activeSkill ≠ quotaRemediationTranscription
    ∧ fallbackResponses activeSkill ≠ quotaRemediationVision := by
  refine ⟨?_, ?_, rfl, ?_, ?_⟩
  · simp [processTranscriptionFailureResult, generateIntelligentFallbackResponse, h, Except.map]
  · simp [processScreenshotFailureResult, generateVisionFallbackResponse, h, Except.map]
  · unfold fallbackResponses
    split
    · decide
    · split
      · decide
      · split
        · decide
        · decide
  · unfold fallbackResponses
    split
    · decide
    · split
      · decide
      · split
        · decide
        · decide

/-- Witness for the C1 amended theorem at the quota failure message
"429", skill "dsa". -/
theorem quota_fallback_messages_witness :
    (processTranscriptionFailureResult "x" "dsa" "429" true 1).map
        (fun env => env.response) = .ok quotaRemediationTranscription
    ∧ (processScreenshotFailureResult "x" "dsa" "429" true 1).map
        (fun env => env.response) = .ok quotaRemediationVision
    ∧ (processTextFailureResult "x" "dsa" "429" true 1).map
        (fun env => env.response) = .ok (fallbackResponses "dsa")
    ∧ fallbackResponses "dsa" ≠ quotaRemediationTranscription
    ∧ fallbackResponses "dsa" ≠ quotaRemediationVision :=
  quota_fallback_messages "x" "dsa" "429" 1 (by rfl)

theorem jsTrim_empty : jsTrim "" = "" := rfl

theorem filter_histEligible_eq_spec (l : List HistTurn)
    (h : ∀ t ∈ l, isStringVal t.content = true) :
    l.filter histEligible = l.filter specEligible := by
  apply List.filter_congr
  intro t ht
  have hst := h t ht
  obtain ⟨role, content⟩ := t
  cases content with
  | vstr s =>
    by_cases h0 : s == ""
    · have hs0 : s = "" := by simpa using h0
      subst hs0
      simp [histEligible, specEligible, jsTruthy, contentString, isStringVal, jsTrim_empty]
    · simp [histEligible, specEligible, jsTruthy, contentString, isStringVal, h0,
        Bool.and_assoc]
  | vnum n => simp [isStringVal] at hst
  | vnull => simp [isStringVal] at hst
  | vundef => simp [isStringVal] at hst
  | vbool b => simp [isStringVal] at hst

theorem mem_of_mem_getConversationHistory {t : HistTurn} {n : ℕ} {src : List HistTurn}
    (h : t ∈ getConversationHistory n src) : t ∈ src :=
  List.drop_subset _ _ h

theorem filterMap_eq_map_of_histEligible (l : List HistTurn)
    (h : ∀ t ∈ l, histEligible t = true) :
    l.filterMap mapTranscHistTurn = l.map mapHistTurn := by
  induction l with
  | nil => rfl
  | cons a as ih =>
    have ha := h a (List.mem_cons_self a as)
    simp only [histEligible, Bool.and_eq_true, Bool.not_eq_true'] at ha
    have hne : (jsTrim (contentString a.content) == "") = false := ha.2
    simp [List.filterMap_cons, mapTranscHistTurn, mapHistTurn, hne,
      ih (fun t htm => h t (List.mem_cons_of_mem a htm))]

theorem filterE_visionEligible_eq_filter (l : List HistTurn)
    (h : ∀ t ∈ l, isStringVal t.content = true) :
    filterE visionEligible l = .ok (l.filter specEligible) := by
  induction l with
  | nil => rfl
  | cons a as ih =>
    have ha : visionEligible a = .ok (specEligible a) := by
      have hst := h a (List.mem_cons_self a as)
      obtain ⟨role, content⟩ := a
      cases content with
      | vstr s =>
        by_cases h1 : role == "system"
        · simp [visionEligible, specEligible, h1]
        · by_cases h2 : s == ""
          · have hs0 : s = "" := by simpa using h2
            subst hs0
            simp [visionEligible, specEligible, h1, jsTruthy, contentString, jsTrim_empty]
          · simp [visionEligible, specEligible, h1, jsTruthy, h2, contentString]
      | vnum n => simp [isStringVal] at hst
      | vnull => simp [isStringVal] at hst
      | vundef => simp [isStringVal] at hst
      | vbool b => simp [isStringVal] at hst
    simp [filterE, ha, ih (fun t htm => h t (List.mem_cons_of_mem a htm)),
      List.filter_cons, exceptBind_ok, exceptMap_ok]

/-- C6 (against the spec-modelled `getConversationHistory` window): for
history turns with textual content, the history part of each built
request equals exactly the per-kind retrieval window (15 plain, 10
transcription, 5 vision) with system-role and empty-content turns
excluded, transcription further capped to the most recent 8 after
filtering, each turn role-mapped ("model" stays, everything else becomes
"user"), in original relative order. -/
theorem history_window_spec (src : List HistTurn) (ctx : SkillContext)
    (text activeSkill prompt : String) (pl : Option String) (img : Option ImageData)
    (hs : ∀ t ∈ src, isStringVal t.content = true) (ht : jsTrim text ≠ "") :
    (∃ r, buildGeminiRequest text activeSkill src ctx = .ok r
        ∧ r.contents.dropLast
            = ((getConversationHistory 15 src).filter specEligible).map mapHistTurn)
    ∧ (∃ r, buildIntelligentTranscriptionRequest (.vstr text) activeSkill src ctx pl = .ok r
        ∧ r.contents.dropLast
            = (takeLast 8 ((getConversationHistory 10 src).filter specEligible)).map mapHistTurn)
    ∧ (∃ r, buildVisionRequest img prompt activeSkill src pl = .ok r
        ∧ r.contents.dropLast
            = ((getConversationHistory 5 src).filter specEligible).map mapHistTurn) := by
  have hs15 : ∀ t ∈ getConversationHistory 15 src, isStringVal t.content = true :=
    fun t h' => hs t (mem_of_mem_getConversationHistory h')
  have hs10 : ∀ t ∈ getConversationHistory 10 src, isStringVal t.content = true :=
    fun t h' => hs t (mem_of_mem_getConversationHistory h')
  have hs5 : ∀ t ∈ getConversationHistory 5 src, isStringVal t.content = true :=
    fun t h' => hs t (mem_of_mem_getConversationHistory h')
  refine ⟨?_, ?_, ?_⟩
  · refine ⟨_, buildGeminiRequestWithHistory_ok text activeSkill
      (getConversationHistory 15 src) ctx, ?_⟩
    have hfil := filter_histEligible_eq_spec _ hs15
    simp only []
    rw [List.dropLast_concat, hfil]
  · have htext : text ≠ "" := by
      intro e
      apply ht
      rw [e]
      rfl
    have hclean : cleanTextOf (.vstr text) = jsTrim text := by
      simp [cleanTextOf, jsTruthy, isStringVal, contentString, htext]
    have hwrap : buildIntelligentTranscriptionRequest (.vstr text) activeSkill src ctx pl
        = buildIntelligentTranscriptionRequestWithHistory (.vstr (jsTrim text)) activeSkill
            (getConversationHistory 10 src) ctx pl := by
      simp only [buildIntelligentTranscriptionRequest, hclean]
      rw [if_neg (by simp [ht])]
    have hok := buildIntelligentTranscriptionRequestWithHistory_ok (jsTrim text) activeSkill
      (getConversationHistory 10 src) ctx pl (by rw [jsTrim_idem]; exact ht)
    refine ⟨_, by rw [hwrap]; exact hok, ?_⟩
    have hfil := filter_histEligible_eq_spec _ hs10
    have hmem : ∀ t ∈ takeLast 8 ((getConversationHistory 10 src).filter histEligible),
        histEligible t = true := by
      intro t h'
      have h2 : t ∈ (getConversationHistory 10 src).filter histEligible :=
        List.drop_subset _ _ h'
      exact (List.mem_filter.mp h2).2
    simp only []
    rw [List.dropLast_concat, filterMap_eq_map_of_histEligible _ hmem, hfil]
  · have hfe := filterE_visionEligible_eq_filter (getConversationHistory 5 src) hs5
    refine ⟨_, buildVisionRequest_ok img prompt activeSkill src pl _ hfe, ?_⟩
    simp only []
    rw [List.dropLast_concat]

/-- Witness for C6 at a concrete mixed history (a system turn, a user
turn, a model turn and a whitespace-only turn), input "hello". -/
theorem history_window_spec_witness :
    (∃ r, buildGeminiRequest "hello" "dsa"
          [⟨"system", .vstr "sys"⟩, ⟨"user", .vstr "q1"⟩, ⟨"model", .vstr "a1"⟩,
           ⟨"user", .vstr " "⟩] ⟨"", false⟩ = .ok r
        ∧ r.contents.dropLast
            = ((getConversationHistory 15
                  [⟨"system", .vstr "sys"⟩, ⟨"user", .vstr "q1"⟩, ⟨"model", .vstr "a1"⟩,
                   ⟨"user", .vstr " "⟩]).filter specEligible).map mapHistTurn)
    ∧ (∃ r, buildIntelligentTranscriptionRequest (.vstr "hello") "dsa"
          [⟨"system", .vstr "sys"⟩, ⟨"user", .vstr "q1"⟩, ⟨"model", .vstr "a1"⟩,
           ⟨"user", .vstr " "⟩] ⟨"", false⟩ none = .ok r
        ∧ r.contents.dropLast
            = (takeLast 8 ((getConversationHistory 10
                  [⟨"system", .vstr "sys"⟩, ⟨"user", .vstr "q1"⟩, ⟨"model", .vstr "a1"⟩,
                   ⟨"user", .vstr " "⟩]).filter specEligible)).map mapHistTurn)
    ∧ (∃ r, buildVisionRequest none "p" "dsa"
          [⟨"system", .vstr "sys"⟩, ⟨"user", .vstr "q1"⟩, ⟨"model", .vstr "a1"⟩,
           ⟨"user", .vstr " "⟩] none = .ok r
        ∧ r.contents.dropLast
            = ((getConversationHistory 5
                  [⟨"system", .vstr "sys"⟩, ⟨"user", .vstr "q1"⟩, ⟨"model", .vstr "a1"⟩,
                   ⟨"user", .vstr " "⟩]).filter specEligible).map mapHistTurn) :=
  history_window_spec
    [⟨"system", .vstr "sys"⟩, ⟨"user", .vstr "q1"⟩, ⟨"model", .vstr "a1"⟩,
     ⟨"user", .vstr " "⟩] ⟨"", false⟩ "hello" "dsa" "p" none none
    (by decide) (by decide)

end Assistant
